import Mathlib

/-
  Verification of the feature-extraction blocks of real_esrgan
  (src/real_esrgan/layers/blocks.py) over a shallow embedding.

  The block topology (ResidualDenseBlock, ResidualResidualDenseBlock,
  ResidualFeatureDistillationBlock) is translated from the source file.
  The tensor library the source calls into (torch) is not part of the
  repository; Tensor, Conv2D and the elementwise operations are modelled
  from the specification, sections 3, 4.1 and 4.2.
-/

namespace ESRGan

/-- Modelled from the spec: a dense 4-D numeric container with shape
(N, C, H, W).  Entries are total functions on indices; only indices below
the recorded sizes are meaningful. -/
structure Tensor where
  n : Nat
  c : Nat
  h : Nat
  w : Nat
  data : Nat → Nat → Nat → Nat → ℚ

attribute [ext] Tensor

/-- Modelled from the spec: the error raised when operand shapes are
incompatible for an elementwise, concat or conv operation. -/
inductive ShapeError where
  | shapeMismatch

/-- Elementwise sum of two tensors, shapes assumed compatible. -/
def Tensor.addFn (a b : Tensor) : Tensor :=
  ⟨a.n, a.c, a.h, a.w, fun bi ci yi xi => a.data bi ci yi xi + b.data bi ci yi xi⟩

/-- Modelled from the spec: add(a,b) is the elementwise sum and fails with
ShapeError on any shape mismatch, never broadcasting. -/
def Tensor.add (a b : Tensor) : Except ShapeError Tensor :=
  if a.n = b.n ∧ a.c = b.c ∧ a.h = b.h ∧ a.w = b.w then .ok (a.addFn b)
  else .error ShapeError.shapeMismatch

/-- Modelled from the spec: elementwise multiplication by a scalar. -/
def Tensor.scale (a : Tensor) (k : ℚ) : Tensor :=
  ⟨a.n, a.c, a.h, a.w, fun bi ci yi xi => a.data bi ci yi xi * k⟩

/-- Modelled from the spec: leaky ReLU, x if x is nonnegative and
negative_slope * x otherwise, applied elementwise. -/
def Tensor.leakyRelu (a : Tensor) (slope : ℚ) : Tensor :=
  ⟨a.n, a.c, a.h, a.w, fun bi ci yi xi =>
    if 0 ≤ a.data bi ci yi xi then a.data bi ci yi xi
    else slope * a.data bi ci yi xi⟩

/-- Channel concatenation of two tensors: the channels of the first operand
come first, followed by the channels of the second operand. -/
def Tensor.concat2Fn (a b : Tensor) : Tensor :=
  ⟨a.n, a.c + b.c, a.h, a.w, fun bi ci yi xi =>
    if ci < a.c then a.data bi ci yi xi else b.data bi (ci - a.c) yi xi⟩

/-- Left fold of binary channel concatenation over a list of tensors. -/
def concatFnList (t : Tensor) (rest : List Tensor) : Tensor :=
  rest.foldl Tensor.concat2Fn t

/-- Modelled from the spec: concat_channels concatenates an ordered sequence
of tensors along the channel axis and fails with ShapeError if any N, H or W
mismatch. -/
def concatChannels : List Tensor → Except ShapeError Tensor
  | [] => .error ShapeError.shapeMismatch
  | t :: rest =>
      if ∀ u ∈ rest, u.n = t.n ∧ u.h = t.h ∧ u.w = t.w then
        .ok (concatFnList t rest)
      else .error ShapeError.shapeMismatch

/-- Zero padded read of a tensor entry: zero outside the padded spatial
window, the underlying entry inside it. -/
def Tensor.padAt (x : Tensor) (p : Nat) (bi ci yi xi : Nat) : ℚ :=
  if p ≤ yi ∧ yi < x.h + p ∧ p ≤ xi ∧ xi < x.w + p then
    x.data bi ci (yi - p) (xi - p)
  else 0

/-- Modelled from the spec: a learned 2D convolution operator with stride 1,
square kernel and symmetric zero padding, weights and bias supplied
externally. -/
structure Conv2d where
  inChannels : Nat
  outChannels : Nat
  kernelSize : Nat
  padding : Nat
  weight : Nat → Nat → Nat → Nat → ℚ
  bias : Nat → ℚ

/-- Modelled from the spec: the cross correlation underlying Conv2D, for each
output pixel and output channel a sum over the kernel window and the input
channels, plus the bias of the output channel. -/
def Conv2d.applyFn (conv : Conv2d) (x : Tensor) : Tensor :=
  ⟨x.n, conv.outChannels,
   x.h + 2 * conv.padding + 1 - conv.kernelSize,
   x.w + 2 * conv.padding + 1 - conv.kernelSize,
   fun bi oc yi xi =>
     conv.bias oc +
       Finset.sum (Finset.range conv.inChannels) fun ic =>
         Finset.sum (Finset.range conv.kernelSize) fun ky =>
           Finset.sum (Finset.range conv.kernelSize) fun kx =>
             conv.weight oc ic ky kx * x.padAt conv.padding bi ic (yi + ky) (xi + kx)⟩

/-- Modelled from the spec: Conv2D forward fails with ShapeError when the
input channel count does not match the declared in_channels. -/
def Conv2d.forward (conv : Conv2d) (x : Tensor) : Except ShapeError Tensor :=
  if x.c = conv.inChannels then .ok (conv.applyFn x)
  else .error ShapeError.shapeMismatch

/-- The identity layer, nn.Identity in the source. -/
def identityLayer (t : Tensor) : Tensor := t

/-- Weight and bias of one convolution, supplied externally. -/
structure ConvWeights where
  weight : Nat → Nat → Nat → Nat → ℚ
  bias : Nat → ℚ

/-- The five convolution weight sets of one ResidualDenseBlock. -/
structure RDBWeights where
  c1 : ConvWeights
  c2 : ConvWeights
  c3 : ConvWeights
  c4 : ConvWeights
  c5 : ConvWeights

/-- ResidualDenseBlock configuration and weights, from the source
constructor: channels, growth_channels and five convolutions. -/
structure ResidualDenseBlock where
  channels : Nat
  growthChannels : Nat
  w : RDBWeights

/-- conv_1 of the source constructor: channels + growth_channels * 0 in,
growth_channels out, kernel 3, stride 1, padding 1. -/
def ResidualDenseBlock.conv_1 (m : ResidualDenseBlock) : Conv2d :=
  ⟨m.channels + m.growthChannels * 0, m.growthChannels, 3, 1, m.w.c1.weight, m.w.c1.bias⟩

/-- conv_2 of the source constructor: channels + growth_channels * 1 in. -/
def ResidualDenseBlock.conv_2 (m : ResidualDenseBlock) : Conv2d :=
  ⟨m.channels + m.growthChannels * 1, m.growthChannels, 3, 1, m.w.c2.weight, m.w.c2.bias⟩

/-- conv_3 of the source constructor: channels + growth_channels * 2 in. -/
def ResidualDenseBlock.conv_3 (m : ResidualDenseBlock) : Conv2d :=
  ⟨m.channels + m.growthChannels * 2, m.growthChannels, 3, 1, m.w.c3.weight, m.w.c3.bias⟩

/-- conv_4 of the source constructor: channels + growth_channels * 3 in. -/
def ResidualDenseBlock.conv_4 (m : ResidualDenseBlock) : Conv2d :=
  ⟨m.channels + m.growthChannels * 3, m.growthChannels, 3, 1, m.w.c4.weight, m.w.c4.bias⟩

/-- conv_5 of the source constructor: channels + growth_channels * 4 in,
channels out. -/
def ResidualDenseBlock.conv_5 (m : ResidualDenseBlock) : Conv2d :=
  ⟨m.channels + m.growthChannels * 4, m.channels, 3, 1, m.w.c5.weight, m.w.c5.bias⟩

/-- ResidualDenseBlock.forward, translated line by line from the source:
five stages of convolution over growing concatenations, leaky ReLU with
slope 0.2 after the first four, nn.Identity after the fifth, then
out = out_5 * 0.2 and the residual add with the captured identity. -/
def ResidualDenseBlock.forward (m : ResidualDenseBlock) (x : Tensor) :
    Except ShapeError Tensor := do
  let identity := x
  let out_1 := (← m.conv_1.forward x).leakyRelu 0.2
  let out_2 := (← m.conv_2.forward (← concatChannels [x, out_1])).leakyRelu 0.2
  let out_3 := (← m.conv_3.forward (← concatChannels [x, out_1, out_2])).leakyRelu 0.2
  let out_4 := (← m.conv_4.forward (← concatChannels [x, out_1, out_2, out_3])).leakyRelu 0.2
  let out_5 := identityLayer (← m.conv_5.forward (← concatChannels [x, out_1, out_2, out_3, out_4]))
  let out := out_5.scale 0.2
  Tensor.add out identity

/-- ResidualResidualDenseBlock configuration and weights, from the source
constructor: three ResidualDenseBlocks with the same configuration and
independent weights. -/
structure ResidualResidualDenseBlock where
  channels : Nat
  growthChannels : Nat
  w1 : RDBWeights
  w2 : RDBWeights
  w3 : RDBWeights

/-- rdb_1 of the source constructor. -/
def ResidualResidualDenseBlock.rdb_1 (m : ResidualResidualDenseBlock) : ResidualDenseBlock :=
  ⟨m.channels, m.growthChannels, m.w1⟩

/-- rdb_2 of the source constructor. -/
def ResidualResidualDenseBlock.rdb_2 (m : ResidualResidualDenseBlock) : ResidualDenseBlock :=
  ⟨m.channels, m.growthChannels, m.w2⟩

/-- rdb_3 of the source constructor. -/
def ResidualResidualDenseBlock.rdb_3 (m : ResidualResidualDenseBlock) : ResidualDenseBlock :=
  ⟨m.channels, m.growthChannels, m.w3⟩

/-- ResidualResidualDenseBlock.forward, translated line by line from the
source: the three inner blocks chained, out = out * 0.2, residual add with
the captured identity. -/
def ResidualResidualDenseBlock.forward (m : ResidualResidualDenseBlock) (x : Tensor) :
    Except ShapeError Tensor := do
  let identity := x
  let out ← m.rdb_1.forward x
  let out ← m.rdb_2.forward out
  let out ← m.rdb_3.forward out
  let out := out.scale 0.2
  Tensor.add out identity

/-- ResidualFeatureDistillationBlock configuration and weights, from the
source constructor: eight convolutions plus the attention gate.  The gate
(EnhancedSpatialAttention) is defined outside this file of the repository;
the spec treats it as an injected tensor transform, modelled here as a
function field. -/
structure ResidualFeatureDistillationBlock where
  channels : Nat
  w1d : ConvWeights
  w1r : ConvWeights
  w2d : ConvWeights
  w2r : ConvWeights
  w3d : ConvWeights
  w3r : ConvWeights
  w4 : ConvWeights
  w5 : ConvWeights
  esa : Tensor → Tensor

/-- distilled_channels of the source constructor, channels // 2. -/
def ResidualFeatureDistillationBlock.distilledChannels
    (m : ResidualFeatureDistillationBlock) : Nat := m.channels / 2

/-- remaining_channels of the source constructor, channels. -/
def ResidualFeatureDistillationBlock.remainingChannels
    (m : ResidualFeatureDistillationBlock) : Nat := m.channels

/-- conv_1_distilled of the source constructor: 1 by 1, padding 0. -/
def ResidualFeatureDistillationBlock.conv_1_distilled
    (m : ResidualFeatureDistillationBlock) : Conv2d :=
  ⟨m.channels, m.distilledChannels, 1, 0, m.w1d.weight, m.w1d.bias⟩

/-- conv_1_remaining of the source constructor: 3 by 3, padding 1. -/
def ResidualFeatureDistillationBlock.conv_1_remaining
    (m : ResidualFeatureDistillationBlock) : Conv2d :=
  ⟨m.channels, m.remainingChannels, 3, 1, m.w1r.weight, m.w1r.bias⟩

/-- conv_2_distilled of the source constructor. -/
def ResidualFeatureDistillationBlock.conv_2_distilled
    (m : ResidualFeatureDistillationBlock) : Conv2d :=
  ⟨m.remainingChannels, m.distilledChannels, 1, 0, m.w2d.weight, m.w2d.bias⟩

/-- conv_2_remaining of the source constructor. -/
def ResidualFeatureDistillationBlock.conv_2_remaining
    (m : ResidualFeatureDistillationBlock) : Conv2d :=
  ⟨m.remainingChannels, m.remainingChannels, 3, 1, m.w2r.weight, m.w2r.bias⟩

/-- conv_3_distilled of the source constructor. -/
def ResidualFeatureDistillationBlock.conv_3_distilled
    (m : ResidualFeatureDistillationBlock) : Conv2d :=
  ⟨m.remainingChannels, m.distilledChannels, 1, 0, m.w3d.weight, m.w3d.bias⟩

/-- conv_3_remaining of the source constructor. -/
def ResidualFeatureDistillationBlock.conv_3_remaining
    (m : ResidualFeatureDistillationBlock) : Conv2d :=
  ⟨m.remainingChannels, m.remainingChannels, 3, 1, m.w3r.weight, m.w3r.bias⟩

/-- conv_4 of the source constructor: 3 by 3, remaining to distilled. -/
def ResidualFeatureDistillationBlock.conv_4
    (m : ResidualFeatureDistillationBlock) : Conv2d :=
  ⟨m.remainingChannels, m.distilledChannels, 3, 1, m.w4.weight, m.w4.bias⟩

/-- conv_5 of the source constructor: 1 by 1, distilled_channels * 4 in,
channels out. -/
def ResidualFeatureDistillationBlock.conv_5
    (m : ResidualFeatureDistillationBlock) : Conv2d :=
  ⟨m.distilledChannels * 4, m.channels, 1, 0, m.w5.weight, m.w5.bias⟩

/-- ResidualFeatureDistillationBlock.forward, translated line by line from
the source: three stages of distilled and remaining branches with leaky
ReLU slope 0.05, the remaining branch residual-added to the stage input,
then conv_4, the concatenation of the three distilled outputs with the
fourth remaining output, conv_5 and finally the attention gate. -/
def ResidualFeatureDistillationBlock.forward
    (m : ResidualFeatureDistillationBlock) (x : Tensor) : Except ShapeError Tensor := do
  let distilled_conv_1 := (← m.conv_1_distilled.forward x).leakyRelu 0.05
  let remaining_conv_1 ← m.conv_1_remaining.forward x
  let remaining_conv_1 ← Tensor.add remaining_conv_1 x
  let remaining_conv_1 := remaining_conv_1.leakyRelu 0.05
  let distilled_conv_2 := (← m.conv_2_distilled.forward remaining_conv_1).leakyRelu 0.05
  let remaining_conv_2 ← m.conv_2_remaining.forward remaining_conv_1
  let remaining_conv_2 ← Tensor.add remaining_conv_2 remaining_conv_1
  let remaining_conv_2 := remaining_conv_2.leakyRelu 0.05
  let distilled_conv_3 := (← m.conv_3_distilled.forward remaining_conv_2).leakyRelu 0.05
  let remaining_conv_3 ← m.conv_3_remaining.forward remaining_conv_2
  let remaining_conv_3 ← Tensor.add remaining_conv_3 remaining_conv_2
  let remaining_conv_3 := remaining_conv_3.leakyRelu 0.05
  let remaining_conv_4 := (← m.conv_4.forward remaining_conv_3).leakyRelu 0.05
  let out ← concatChannels [distilled_conv_1, distilled_conv_2, distilled_conv_3, remaining_conv_4]
  let out ← m.conv_5.forward out
  pure (m.esa out)

/-
  Total descriptions of the forward pipelines, used to state what the
  monadic forward operations compute once every shape check passes.
-/

/-- Stage one output of the RDB pipeline. -/
def rdbOut1 (m : ResidualDenseBlock) (x : Tensor) : Tensor :=
  (m.conv_1.applyFn x).leakyRelu 0.2

/-- Concatenation feeding conv_2 of the RDB pipeline. -/
def rdbCat2 (m : ResidualDenseBlock) (x : Tensor) : Tensor :=
  Tensor.concat2Fn x (rdbOut1 m x)

/-- Stage two output of the RDB pipeline. -/
def rdbOut2 (m : ResidualDenseBlock) (x : Tensor) : Tensor :=
  (m.conv_2.applyFn (rdbCat2 m x)).leakyRelu 0.2

/-- Concatenation feeding conv_3 of the RDB pipeline. -/
def rdbCat3 (m : ResidualDenseBlock) (x : Tensor) : Tensor :=
  Tensor.concat2Fn (rdbCat2 m x) (rdbOut2 m x)

/-- Stage three output of the RDB pipeline. -/
def rdbOut3 (m : ResidualDenseBlock) (x : Tensor) : Tensor :=
  (m.conv_3.applyFn (rdbCat3 m x)).leakyRelu 0.2

/-- Concatenation feeding conv_4 of the RDB pipeline. -/
def rdbCat4 (m : ResidualDenseBlock) (x : Tensor) : Tensor :=
  Tensor.concat2Fn (rdbCat3 m x) (rdbOut3 m x)

/-- Stage four output of the RDB pipeline. -/
def rdbOut4 (m : ResidualDenseBlock) (x : Tensor) : Tensor :=
  (m.conv_4.applyFn (rdbCat4 m x)).leakyRelu 0.2

/-- Concatenation feeding conv_5 of the RDB pipeline. -/
def rdbCat5 (m : ResidualDenseBlock) (x : Tensor) : Tensor :=
  Tensor.concat2Fn (rdbCat4 m x) (rdbOut4 m x)

/-- Stage five output of the RDB pipeline, no activation. -/
def rdbOut5 (m : ResidualDenseBlock) (x : Tensor) : Tensor :=
  identityLayer (m.conv_5.applyFn (rdbCat5 m x))

/-- Value computed by ResidualDenseBlock.forward once shape checks pass. -/
def rdbFn (m : ResidualDenseBlock) (x : Tensor) : Tensor :=
  Tensor.addFn ((rdbOut5 m x).scale 0.2) x

/-- Value computed by ResidualResidualDenseBlock.forward once shape checks
pass. -/
def rrdbFn (m : ResidualResidualDenseBlock) (x : Tensor) : Tensor :=
  Tensor.addFn ((rdbFn m.rdb_3 (rdbFn m.rdb_2 (rdbFn m.rdb_1 x))).scale 0.2) x

/-
  Total descriptions of the RFDB pipeline.
-/

/-- Distilled branch of stage one of the RFDB pipeline. -/
def rfdbD1 (m : ResidualFeatureDistillationBlock) (x : Tensor) : Tensor :=
  (m.conv_1_distilled.applyFn x).leakyRelu 0.05

/-- Remaining branch of stage one of the RFDB pipeline: the stage input is
residual-added to the convolution output before the activation. -/
def rfdbR1 (m : ResidualFeatureDistillationBlock) (x : Tensor) : Tensor :=
  (Tensor.addFn (m.conv_1_remaining.applyFn x) x).leakyRelu 0.05

/-- Distilled branch of stage two of the RFDB pipeline. -/
def rfdbD2 (m : ResidualFeatureDistillationBlock) (x : Tensor) : Tensor :=
  (m.conv_2_distilled.applyFn (rfdbR1 m x)).leakyRelu 0.05

/-- Remaining branch of stage two of the RFDB pipeline. -/
def rfdbR2 (m : ResidualFeatureDistillationBlock) (x : Tensor) : Tensor :=
  (Tensor.addFn (m.conv_2_remaining.applyFn (rfdbR1 m x)) (rfdbR1 m x)).leakyRelu 0.05

/-- Distilled branch of stage three of the RFDB pipeline. -/
def rfdbD3 (m : ResidualFeatureDistillationBlock) (x : Tensor) : Tensor :=
  (m.conv_3_distilled.applyFn (rfdbR2 m x)).leakyRelu 0.05

/-- Remaining branch of stage three of the RFDB pipeline. -/
def rfdbR3 (m : ResidualFeatureDistillationBlock) (x : Tensor) : Tensor :=
  (Tensor.addFn (m.conv_3_remaining.applyFn (rfdbR2 m x)) (rfdbR2 m x)).leakyRelu 0.05

/-- Fourth stage of the RFDB pipeline, remaining to distilled width, no
residual. -/
def rfdbR4 (m : ResidualFeatureDistillationBlock) (x : Tensor) : Tensor :=
  (m.conv_4.applyFn (rfdbR3 m x)).leakyRelu 0.05

/-- The concatenation feeding conv_5 of the RFDB pipeline. -/
def rfdbCat (m : ResidualFeatureDistillationBlock) (x : Tensor) : Tensor :=
  concatFnList (rfdbD1 m x) [rfdbD2 m x, rfdbD3 m x, rfdbR4 m x]

/-- Value computed by ResidualFeatureDistillationBlock.forward once shape
checks pass: the fusion convolution over the concatenation, then the
attention gate as the last step. -/
def rfdbFn (m : ResidualFeatureDistillationBlock) (x : Tensor) : Tensor :=
  m.esa (m.conv_5.applyFn (rfdbCat m x))

/-
  Spec-side pipelines, transcribed from the pseudocode of the spec, to be
  compared with the forward operations translated from the source.
-/

/-- Modelled from the spec: the RDB pipeline of section 4.3, out1 to out4
activated with leaky ReLU slope 0.2, out5 with no activation, and the
return value x + 0.2 * out5 with the fixed scale constant 0.2. -/
def rdbSpecForward (m : ResidualDenseBlock) (x : Tensor) :
    Except ShapeError Tensor := do
  let out1 := (← m.conv_1.forward x).leakyRelu 0.2
  let out2 := (← m.conv_2.forward (← concatChannels [x, out1])).leakyRelu 0.2
  let out3 := (← m.conv_3.forward (← concatChannels [x, out1, out2])).leakyRelu 0.2
  let out4 := (← m.conv_4.forward (← concatChannels [x, out1, out2, out3])).leakyRelu 0.2
  let out5 ← m.conv_5.forward (← concatChannels [x, out1, out2, out3, out4])
  Tensor.add x (out5.scale 0.2)

/-- Modelled from the spec: the RRDB pipeline of section 4.4, the three
inner blocks chained and the outer 0.2 scale applied exactly once around
the whole stack, returning x + 0.2 * RDB3(RDB2(RDB1(x))). -/
def rrdbSpecForward (m : ResidualResidualDenseBlock) (x : Tensor) :
    Except ShapeError Tensor := do
  let out ← m.rdb_3.forward (← m.rdb_2.forward (← m.rdb_1.forward x))
  Tensor.add x (out.scale 0.2)

/-- Modelled from the spec: the RFDB pipeline of section 4.5, three stages
of distilled (1 by 1 conv, no residual) and remaining (3 by 3 conv,
residual-added to the stage input) branches with leaky ReLU slope 0.05, a
fourth convolution to distilled width, the 1 by 1 fusion convolution over
the concatenation, and the attention gate applied once as the last step. -/
def rfdbSpecForward (m : ResidualFeatureDistillationBlock) (x : Tensor) :
    Except ShapeError Tensor := do
  let d1 := (← m.conv_1_distilled.forward x).leakyRelu 0.05
  let r1 := (← Tensor.add (← m.conv_1_remaining.forward x) x).leakyRelu 0.05
  let d2 := (← m.conv_2_distilled.forward r1).leakyRelu 0.05
  let r2 := (← Tensor.add (← m.conv_2_remaining.forward r1) r1).leakyRelu 0.05
  let d3 := (← m.conv_3_distilled.forward r2).leakyRelu 0.05
  let r3 := (← Tensor.add (← m.conv_3_remaining.forward r2) r2).leakyRelu 0.05
  let r4 := (← m.conv_4.forward r3).leakyRelu 0.05
  let fused ← m.conv_5.forward (← concatChannels [d1, d2, d3, r4])
  pure (m.esa fused)

/-
  Buffer-level model of the forward passes.  The source applies its leaky
  ReLU modules in place (nn.LeakyReLU(slope, True)); to reason about which
  buffers are mutated, the forward passes are replayed over an explicit
  store of tensor buffers.  Convolutions, concatenations, torch.mul and
  torch.add allocate fresh buffers; the in-place activation overwrites the
  buffer it is given.
-/

/-- A store of tensor buffers: references below next are allocated. -/
structure Store where
  next : Nat
  val : Nat → Tensor

/-- Allocate a fresh buffer holding t, returning the updated store and the
reference of the new buffer. -/
def Store.alloc (s : Store) (t : Tensor) : Store × Nat :=
  (⟨s.next + 1, fun i => if i = s.next then t else s.val i⟩, s.next)

/-- Overwrite the buffer at reference r in place. -/
def Store.write (s : Store) (r : Nat) (t : Tensor) : Store :=
  ⟨s.next, fun i => if i = r then t else s.val i⟩

/-- Read the buffer at reference r. -/
def Store.read (s : Store) (r : Nat) : Tensor := s.val r

/-- One source line of the form out = leaky_relu(conv(read r)): the
convolution allocates a fresh buffer and the in-place activation
overwrites that freshly allocated buffer. -/
def stageConvAct (conv : Conv2d) (slope : ℚ) (r : Nat) (s : Store) : Store × Nat :=
  let a := s.alloc (conv.applyFn (s.read r))
  (a.1.write a.2 ((a.1.read a.2).leakyRelu slope), a.2)

/-- A convolution with no activation: allocates a fresh buffer. -/
def stageConv (conv : Conv2d) (r : Nat) (s : Store) : Store × Nat :=
  s.alloc (conv.applyFn (s.read r))

/-- torch.cat: allocates a fresh buffer for the concatenation. -/
def stageCat (r : Nat) (os : List Nat) (s : Store) : Store × Nat :=
  s.alloc (concatFnList (s.read r) (os.map s.read))

/-- torch.mul with a scalar: allocates a fresh buffer. -/
def stageMul (k : ℚ) (r : Nat) (s : Store) : Store × Nat :=
  s.alloc ((s.read r).scale k)

/-- torch.add: allocates a fresh buffer for the sum. -/
def stageAdd (r1 r2 : Nat) (s : Store) : Store × Nat :=
  s.alloc (Tensor.addFn (s.read r1) (s.read r2))

/-- torch.add immediately followed by the in-place activation, as in the
remaining branches of the RFDB: the activation overwrites the fresh sum
buffer, not either operand. -/
def stageAddAct (slope : ℚ) (r1 r2 : Nat) (s : Store) : Store × Nat :=
  let a := stageAdd r1 r2 s
  (a.1.write a.2 ((a.1.read a.2).leakyRelu slope), a.2)

/-- The attention gate applied to a buffer, producing a fresh buffer. -/
def stageGate (g : Tensor → Tensor) (r : Nat) (s : Store) : Store × Nat :=
  s.alloc (g (s.read r))

/-- ResidualDenseBlock.forward replayed over the buffer store, one stage
per source line.  The reference x is captured as the residual identity at
the start and read again by the final add; every in-place activation hits
a buffer freshly allocated by the convolution of the same line. -/
def rdbForwardStore (m : ResidualDenseBlock) (s0 : Store) (x : Nat) : Store × Nat :=
  let identity := x
  let p1 := stageConvAct m.conv_1 0.2 x s0
  let q2 := stageCat x [p1.2] p1.1
  let p2 := stageConvAct m.conv_2 0.2 q2.2 q2.1
  let q3 := stageCat x [p1.2, p2.2] p2.1
  let p3 := stageConvAct m.conv_3 0.2 q3.2 q3.1
  let q4 := stageCat x [p1.2, p2.2, p3.2] p3.1
  let p4 := stageConvAct m.conv_4 0.2 q4.2 q4.1
  let q5 := stageCat x [p1.2, p2.2, p3.2, p4.2] p4.1
  let p5 := stageConv m.conv_5 q5.2 q5.1
  let mu := stageMul 0.2 p5.2 p5.1
  stageAdd mu.2 identity mu.1

/-- ResidualResidualDenseBlock.forward replayed over the buffer store. -/
def rrdbForwardStore (m : ResidualResidualDenseBlock) (s0 : Store) (x : Nat) : Store × Nat :=
  let identity := x
  let a := rdbForwardStore m.rdb_1 s0 x
  let b := rdbForwardStore m.rdb_2 a.1 a.2
  let c := rdbForwardStore m.rdb_3 b.1 b.2
  let mu := stageMul 0.2 c.2 c.1
  stageAdd mu.2 identity mu.1

/-- ResidualFeatureDistillationBlock.forward replayed over the buffer
store: the in-place activations overwrite either a convolution output or
the fresh sum produced by torch.add, never the input buffer. -/
def rfdbForwardStore (m : ResidualFeatureDistillationBlock) (s0 : Store) (x : Nat) : Store × Nat :=
  let d1 := stageConvAct m.conv_1_distilled 0.05 x s0
  let r1c := stageConv m.conv_1_remaining x d1.1
  let r1 := stageAddAct 0.05 r1c.2 x r1c.1
  let d2 := stageConvAct m.conv_2_distilled 0.05 r1.2 r1.1
  let r2c := stageConv m.conv_2_remaining r1.2 d2.1
  let r2 := stageAddAct 0.05 r2c.2 r1.2 r2c.1
  let d3 := stageConvAct m.conv_3_distilled 0.05 r2.2 r2.1
  let r3c := stageConv m.conv_3_remaining r2.2 d3.1
  let r3 := stageAddAct 0.05 r3c.2 r2.2 r3c.1
  let r4 := stageConvAct m.conv_4 0.05 r3.2 r3.1
  let ct := stageCat d1.2 [d2.2, d3.2, r4.2] r4.1
  let o5 := stageConv m.conv_5 ct.2 ct.1
  stageGate m.esa o5.2 o5.1

/-- One store extends another when it has at least as many allocated
buffers and agrees with it on every buffer allocated in the smaller one. -/
def StoreExtends (s0 s1 : Store) : Prop :=
  s0.next ≤ s1.next ∧ ∀ i, i < s0.next → s1.val i = s0.val i

/-
  Concrete instances used by the witnesses and counterexamples.
-/

/-- The all-zero weight and bias of one convolution. -/
def zeroConvWeights : ConvWeights := ⟨fun _ _ _ _ => 0, fun _ => 0⟩

/-- The all-zero weight set of a ResidualDenseBlock. -/
def zeroRDBWeights : RDBWeights :=
  ⟨zeroConvWeights, zeroConvWeights, zeroConvWeights, zeroConvWeights, zeroConvWeights⟩

/-- A ResidualDenseBlock with channels 1, growth 1 and zero weights. -/
def rdbZero : ResidualDenseBlock := ⟨1, 1, zeroRDBWeights⟩

/-- A ResidualResidualDenseBlock with channels 1, growth 1 and zero
weights in all three inner blocks. -/
def rrdbZero : ResidualResidualDenseBlock :=
  ⟨1, 1, zeroRDBWeights, zeroRDBWeights, zeroRDBWeights⟩

/-- A ResidualFeatureDistillationBlock with channels 64, zero weights and
the identity attention gate. -/
def rfdbSixtyFour : ResidualFeatureDistillationBlock :=
  ⟨64, zeroConvWeights, zeroConvWeights, zeroConvWeights, zeroConvWeights,
   zeroConvWeights, zeroConvWeights, zeroConvWeights, zeroConvWeights, fun t => t⟩

/-- A 1 by 1 by 1 by 1 tensor filled with the value 5. -/
def tFive : Tensor := ⟨1, 1, 1, 1, fun _ _ _ _ => 5⟩

/-- A 1 by 1 by 1 by 1 tensor filled with zero. -/
def tZero : Tensor := ⟨1, 1, 1, 1, fun _ _ _ _ => 0⟩

/-- A 1 by 1 by 1 by 1 tensor filled with one. -/
def tOne : Tensor := ⟨1, 1, 1, 1, fun _ _ _ _ => 1⟩

/-- A 2 by 1 by 1 by 1 tensor filled with zero, batch size mismatched with
tZero. -/
def tZeroBatchTwo : Tensor := ⟨2, 1, 1, 1, fun _ _ _ _ => 0⟩

/-- A store holding one allocated buffer, tFive at reference 0. -/
def storeOne : Store := ⟨1, fun _ => tFive⟩

/-- A 1 by 64 by 1 by 1 tensor filled with one, matching rfdbSixtyFour. -/
def tSixtyFour : Tensor := ⟨1, 64, 1, 1, fun _ _ _ _ => 1⟩

@[simp] lemma Tensor.addFn_n (a b : Tensor) : (a.addFn b).n = a.n := rfl

@[simp] lemma Tensor.addFn_c (a b : Tensor) : (a.addFn b).c = a.c := rfl

@[simp] lemma Tensor.addFn_h (a b : Tensor) : (a.addFn b).h = a.h := rfl

@[simp] lemma Tensor.addFn_w (a b : Tensor) : (a.addFn b).w = a.w := rfl

@[simp] lemma Tensor.scale_n (a : Tensor) (k : ℚ) : (a.scale k).n = a.n := rfl

@[simp] lemma Tensor.scale_c (a : Tensor) (k : ℚ) : (a.scale k).c = a.c := rfl

@[simp] lemma Tensor.scale_h (a : Tensor) (k : ℚ) : (a.scale k).h = a.h := rfl

@[simp] lemma Tensor.scale_w (a : Tensor) (k : ℚ) : (a.scale k).w = a.w := rfl

@[simp] lemma Tensor.leakyRelu_n (a : Tensor) (s : ℚ) : (a.leakyRelu s).n = a.n := rfl

@[simp] lemma Tensor.leakyRelu_c (a : Tensor) (s : ℚ) : (a.leakyRelu s).c = a.c := rfl

@[simp] lemma Tensor.leakyRelu_h (a : Tensor) (s : ℚ) : (a.leakyRelu s).h = a.h := rfl

@[simp] lemma Tensor.leakyRelu_w (a : Tensor) (s : ℚ) : (a.leakyRelu s).w = a.w := rfl

@[simp] lemma Tensor.concat2Fn_n (a b : Tensor) : (a.concat2Fn b).n = a.n := rfl

@[simp] lemma Tensor.concat2Fn_c (a b : Tensor) : (a.concat2Fn b).c = a.c + b.c := rfl

@[simp] lemma Tensor.concat2Fn_h (a b : Tensor) : (a.concat2Fn b).h = a.h := rfl

@[simp] lemma Tensor.concat2Fn_w (a b : Tensor) : (a.concat2Fn b).w = a.w := rfl

@[simp] lemma Conv2d.applyFn_n (conv : Conv2d) (x : Tensor) :
    (conv.applyFn x).n = x.n := rfl

@[simp] lemma Conv2d.applyFn_c (conv : Conv2d) (x : Tensor) :
    (conv.applyFn x).c = conv.outChannels := rfl

@[simp] lemma Conv2d.applyFn_h (conv : Conv2d) (x : Tensor) :
    (conv.applyFn x).h = x.h + 2 * conv.padding + 1 - conv.kernelSize := rfl

@[simp] lemma Conv2d.applyFn_w (conv : Conv2d) (x : Tensor) :
    (conv.applyFn x).w = x.w + 2 * conv.padding + 1 - conv.kernelSize := rfl

@[simp] lemma identityLayer_eq (t : Tensor) : identityLayer t = t := rfl

@[simp] lemma ok_bind {α β : Type} (a : α) (f : α → Except ShapeError β) :
    (Except.ok a >>= f) = f a := rfl

lemma Conv2d.forward_eq_ok (conv : Conv2d) (x : Tensor) (hc : x.c = conv.inChannels) :
    conv.forward x = .ok (conv.applyFn x) := by
  unfold Conv2d.forward
  rw [if_pos hc]

@[simp] lemma concatFnList_nil (t : Tensor) : concatFnList t [] = t := rfl

@[simp] lemma concatFnList_cons (t a : Tensor) (rest : List Tensor) :
    concatFnList t (a :: rest) = concatFnList (t.concat2Fn a) rest := rfl

lemma concatChannels_cons_ok (t : Tensor) (rest : List Tensor)
    (h : ∀ u ∈ rest, u.n = t.n ∧ u.h = t.h ∧ u.w = t.w) :
    concatChannels (t :: rest) = .ok (concatFnList t rest) := by
  show (if ∀ u ∈ rest, u.n = t.n ∧ u.h = t.h ∧ u.w = t.w then
      Except.ok (concatFnList t rest)
    else Except.error ShapeError.shapeMismatch) = Except.ok (concatFnList t rest)
  rw [if_pos h]

lemma Tensor.add_eq_ok (a b : Tensor)
    (h : a.n = b.n ∧ a.c = b.c ∧ a.h = b.h ∧ a.w = b.w) :
    Tensor.add a b = .ok (a.addFn b) := by
  unfold Tensor.add
  rw [if_pos h]

/-- The RDB shape checks all pass when the input channel count matches the
configured channels, and the forward operation returns the total pipeline
value. -/
lemma rdb_forward_eq_ok (m : ResidualDenseBlock) (x : Tensor)
    (hc : x.c = m.channels) :
    m.forward x = .ok (rdbFn m x) := by
  unfold ResidualDenseBlock.forward
  rw [Conv2d.forward_eq_ok m.conv_1 x (by simp [ResidualDenseBlock.conv_1, hc])]
  simp only [ok_bind]
  rw [concatChannels_cons_ok _ _ (by simp [ResidualDenseBlock.conv_1, ResidualDenseBlock.conv_2, ResidualDenseBlock.conv_3, ResidualDenseBlock.conv_4, ResidualDenseBlock.conv_5] <;> omega)]
  simp only [ok_bind, concatFnList_cons, concatFnList_nil]
  rw [Conv2d.forward_eq_ok _ _ (by simp [ResidualDenseBlock.conv_1, ResidualDenseBlock.conv_2, ResidualDenseBlock.conv_3, ResidualDenseBlock.conv_4, ResidualDenseBlock.conv_5, hc] <;> omega)]
  simp only [ok_bind]
  rw [concatChannels_cons_ok _ _ (by simp [ResidualDenseBlock.conv_1, ResidualDenseBlock.conv_2, ResidualDenseBlock.conv_3, ResidualDenseBlock.conv_4, ResidualDenseBlock.conv_5] <;> omega)]
  simp only [ok_bind, concatFnList_cons, concatFnList_nil]
  rw [Conv2d.forward_eq_ok _ _ (by simp [ResidualDenseBlock.conv_1, ResidualDenseBlock.conv_2, ResidualDenseBlock.conv_3, ResidualDenseBlock.conv_4, ResidualDenseBlock.conv_5, hc] <;> omega)]
  simp only [ok_bind]
  rw [concatChannels_cons_ok _ _ (by simp [ResidualDenseBlock.conv_1, ResidualDenseBlock.conv_2, ResidualDenseBlock.conv_3, ResidualDenseBlock.conv_4, ResidualDenseBlock.conv_5] <;> omega)]
  simp only [ok_bind, concatFnList_cons, concatFnList_nil]
  rw [Conv2d.forward_eq_ok _ _ (by simp [ResidualDenseBlock.conv_1, ResidualDenseBlock.conv_2, ResidualDenseBlock.conv_3, ResidualDenseBlock.conv_4, ResidualDenseBlock.conv_5, hc] <;> omega)]
  simp only [ok_bind]
  rw [concatChannels_cons_ok _ _ (by simp [ResidualDenseBlock.conv_1, ResidualDenseBlock.conv_2, ResidualDenseBlock.conv_3, ResidualDenseBlock.conv_4, ResidualDenseBlock.conv_5] <;> omega)]
  simp only [ok_bind, concatFnList_cons, concatFnList_nil]
  rw [Conv2d.forward_eq_ok _ _ (by simp [ResidualDenseBlock.conv_1, ResidualDenseBlock.conv_2, ResidualDenseBlock.conv_3, ResidualDenseBlock.conv_4, ResidualDenseBlock.conv_5, hc] <;> omega)]
  simp only [ok_bind]
  rw [Tensor.add_eq_ok _ x (by simp [ResidualDenseBlock.conv_1, ResidualDenseBlock.conv_2, ResidualDenseBlock.conv_3, ResidualDenseBlock.conv_4, ResidualDenseBlock.conv_5, hc] <;> omega)]
  rfl

@[simp] lemma rdbFn_n (m : ResidualDenseBlock) (x : Tensor) : (rdbFn m x).n = x.n := rfl

@[simp] lemma rdbFn_c (m : ResidualDenseBlock) (x : Tensor) : (rdbFn m x).c = m.channels := rfl

@[simp] lemma rdbFn_h (m : ResidualDenseBlock) (x : Tensor) : (rdbFn m x).h = x.h := rfl

@[simp] lemma rdbFn_w (m : ResidualDenseBlock) (x : Tensor) : (rdbFn m x).w = x.w := rfl

@[simp] lemma rdb_1_channels (m : ResidualResidualDenseBlock) :
    m.rdb_1.channels = m.channels := rfl

@[simp] lemma rdb_2_channels (m : ResidualResidualDenseBlock) :
    m.rdb_2.channels = m.channels := rfl

@[simp] lemma rdb_3_channels (m : ResidualResidualDenseBlock) :
    m.rdb_3.channels = m.channels := rfl

/-- The RRDB shape checks all pass when the input channel count matches the
configured channels, and the forward operation returns the total pipeline
value. -/
lemma rrdb_forward_eq_ok (m : ResidualResidualDenseBlock) (x : Tensor)
    (hc : x.c = m.channels) :
    m.forward x = .ok (rrdbFn m x) := by
  unfold ResidualResidualDenseBlock.forward
  rw [rdb_forward_eq_ok m.rdb_1 x (by simp [hc])]
  simp only [ok_bind]
  rw [rdb_forward_eq_ok m.rdb_2 _ (by simp)]
  simp only [ok_bind]
  rw [rdb_forward_eq_ok m.rdb_3 _ (by simp)]
  simp only [ok_bind]
  rw [Tensor.add_eq_ok _ x (by simp [hc])]
  rfl

@[simp] lemma rfdbR1_n (m : ResidualFeatureDistillationBlock) (x : Tensor) :
    (rfdbR1 m x).n = x.n := rfl

@[simp] lemma rfdbR1_c (m : ResidualFeatureDistillationBlock) (x : Tensor) :
    (rfdbR1 m x).c = m.channels := rfl

@[simp] lemma rfdbR1_h (m : ResidualFeatureDistillationBlock) (x : Tensor) :
    (rfdbR1 m x).h = x.h := rfl

@[simp] lemma rfdbR1_w (m : ResidualFeatureDistillationBlock) (x : Tensor) :
    (rfdbR1 m x).w = x.w := rfl

@[simp] lemma rfdbR2_n (m : ResidualFeatureDistillationBlock) (x : Tensor) :
    (rfdbR2 m x).n = x.n := rfl

@[simp] lemma rfdbR2_c (m : ResidualFeatureDistillationBlock) (x : Tensor) :
    (rfdbR2 m x).c = m.channels := rfl

@[simp] lemma rfdbR2_h (m : ResidualFeatureDistillationBlock) (x : Tensor) :
    (rfdbR2 m x).h = x.h := rfl

@[simp] lemma rfdbR2_w (m : ResidualFeatureDistillationBlock) (x : Tensor) :
    (rfdbR2 m x).w = x.w := rfl

@[simp] lemma rfdbR3_n (m : ResidualFeatureDistillationBlock) (x : Tensor) :
    (rfdbR3 m x).n = x.n := rfl

@[simp] lemma rfdbR3_c (m : ResidualFeatureDistillationBlock) (x : Tensor) :
    (rfdbR3 m x).c = m.channels := rfl

@[simp] lemma rfdbR3_h (m : ResidualFeatureDistillationBlock) (x : Tensor) :
    (rfdbR3 m x).h = x.h := rfl

@[simp] lemma rfdbR3_w (m : ResidualFeatureDistillationBlock) (x : Tensor) :
    (rfdbR3 m x).w = x.w := rfl

@[simp] lemma rfdbD1_n (m : ResidualFeatureDistillationBlock) (x : Tensor) :
    (rfdbD1 m x).n = x.n := rfl

@[simp] lemma rfdbD1_c (m : ResidualFeatureDistillationBlock) (x : Tensor) :
    (rfdbD1 m x).c = m.channels / 2 := rfl

@[simp] lemma rfdbD1_h (m : ResidualFeatureDistillationBlock) (x : Tensor) :
    (rfdbD1 m x).h = x.h := rfl

@[simp] lemma rfdbD1_w (m : ResidualFeatureDistillationBlock) (x : Tensor) :
    (rfdbD1 m x).w = x.w := rfl

@[simp] lemma rfdbD2_n (m : ResidualFeatureDistillationBlock) (x : Tensor) :
    (rfdbD2 m x).n = x.n := rfl

@[simp] lemma rfdbD2_c (m : ResidualFeatureDistillationBlock) (x : Tensor) :
    (rfdbD2 m x).c = m.channels / 2 := rfl

@[simp] lemma rfdbD2_h (m : ResidualFeatureDistillationBlock) (x : Tensor) :
    (rfdbD2 m x).h = x.h := rfl

@[simp] lemma rfdbD2_w (m : ResidualFeatureDistillationBlock) (x : Tensor) :
    (rfdbD2 m x).w = x.w := rfl

@[simp] lemma rfdbD3_n (m : ResidualFeatureDistillationBlock) (x : Tensor) :
    (rfdbD3 m x).n = x.n := rfl

@[simp] lemma rfdbD3_c (m : ResidualFeatureDistillationBlock) (x : Tensor) :
    (rfdbD3 m x).c = m.channels / 2 := rfl

@[simp] lemma rfdbD3_h (m : ResidualFeatureDistillationBlock) (x : Tensor) :
    (rfdbD3 m x).h = x.h := rfl

@[simp] lemma rfdbD3_w (m : ResidualFeatureDistillationBlock) (x : Tensor) :
    (rfdbD3 m x).w = x.w := rfl

@[simp] lemma rfdbR4_n (m : ResidualFeatureDistillationBlock) (x : Tensor) :
    (rfdbR4 m x).n = x.n := rfl

@[simp] lemma rfdbR4_c (m : ResidualFeatureDistillationBlock) (x : Tensor) :
    (rfdbR4 m x).c = m.channels / 2 := rfl

@[simp] lemma rfdbR4_h (m : ResidualFeatureDistillationBlock) (x : Tensor) :
    (rfdbR4 m x).h = x.h := rfl

@[simp] lemma rfdbR4_w (m : ResidualFeatureDistillationBlock) (x : Tensor) :
    (rfdbR4 m x).w = x.w := rfl

/-- The RFDB shape checks all pass when the input channel count matches the
configured channels, and the forward operation returns the total pipeline
value, ending with the attention gate. -/
lemma rfdb_forward_eq_ok (m : ResidualFeatureDistillationBlock) (x : Tensor)
    (hc : x.c = m.channels) :
    m.forward x = .ok (rfdbFn m x) := by
  unfold ResidualFeatureDistillationBlock.forward
  rw [Conv2d.forward_eq_ok m.conv_1_distilled x
    (by simp [ResidualFeatureDistillationBlock.conv_1_distilled, hc])]
  simp only [ok_bind]
  rw [Conv2d.forward_eq_ok m.conv_1_remaining x
    (by simp [ResidualFeatureDistillationBlock.conv_1_remaining,
      ResidualFeatureDistillationBlock.remainingChannels, hc])]
  simp only [ok_bind]
  rw [Tensor.add_eq_ok _ x
    (by simp [ResidualFeatureDistillationBlock.conv_1_remaining,
      ResidualFeatureDistillationBlock.remainingChannels, hc] <;> omega)]
  simp only [ok_bind]
  rw [Conv2d.forward_eq_ok m.conv_2_distilled _
    (by simp [ResidualFeatureDistillationBlock.conv_2_distilled,
      ResidualFeatureDistillationBlock.conv_1_remaining,
      ResidualFeatureDistillationBlock.remainingChannels, hc])]
  simp only [ok_bind]
  rw [Conv2d.forward_eq_ok m.conv_2_remaining _
    (by simp [ResidualFeatureDistillationBlock.conv_2_remaining,
      ResidualFeatureDistillationBlock.conv_1_remaining,
      ResidualFeatureDistillationBlock.remainingChannels, hc])]
  simp only [ok_bind]
  rw [Tensor.add_eq_ok _ _
    (by simp [ResidualFeatureDistillationBlock.conv_2_remaining,
      ResidualFeatureDistillationBlock.conv_1_remaining,
      ResidualFeatureDistillationBlock.remainingChannels, hc] <;> omega)]
  simp only [ok_bind]
  rw [Conv2d.forward_eq_ok m.conv_3_distilled _
    (by simp [ResidualFeatureDistillationBlock.conv_3_distilled,
      ResidualFeatureDistillationBlock.conv_2_remaining,
      ResidualFeatureDistillationBlock.conv_1_remaining,
      ResidualFeatureDistillationBlock.remainingChannels, hc])]
  simp only [ok_bind]
  rw [Conv2d.forward_eq_ok m.conv_3_remaining _
    (by simp [ResidualFeatureDistillationBlock.conv_3_remaining,
      ResidualFeatureDistillationBlock.conv_2_remaining,
      ResidualFeatureDistillationBlock.conv_1_remaining,
      ResidualFeatureDistillationBlock.remainingChannels, hc])]
  simp only [ok_bind]
  rw [Tensor.add_eq_ok _ _
    (by simp [ResidualFeatureDistillationBlock.conv_3_remaining,
      ResidualFeatureDistillationBlock.conv_2_remaining,
      ResidualFeatureDistillationBlock.conv_1_remaining,
      ResidualFeatureDistillationBlock.remainingChannels, hc] <;> omega)]
  simp only [ok_bind]
  rw [Conv2d.forward_eq_ok m.conv_4 _
    (by simp [ResidualFeatureDistillationBlock.conv_4,
      ResidualFeatureDistillationBlock.conv_3_remaining,
      ResidualFeatureDistillationBlock.conv_2_remaining,
      ResidualFeatureDistillationBlock.conv_1_remaining,
      ResidualFeatureDistillationBlock.remainingChannels, hc])]
  simp only [ok_bind]
  rw [concatChannels_cons_ok _ _
    (by show ∀ u ∈ [rfdbD2 m x, rfdbD3 m x, rfdbR4 m x],
          u.n = (rfdbD1 m x).n ∧ u.h = (rfdbD1 m x).h ∧ u.w = (rfdbD1 m x).w
        simp)]
  simp only [ok_bind]
  rw [Conv2d.forward_eq_ok m.conv_5 _
    (by show (concatFnList (rfdbD1 m x) [rfdbD2 m x, rfdbD3 m x, rfdbR4 m x]).c
          = m.conv_5.inChannels
        simp [ResidualFeatureDistillationBlock.conv_5,
          ResidualFeatureDistillationBlock.distilledChannels]
        omega)]
  simp only [ok_bind]
  rfl

@[simp] lemma rdbOut5_n (m : ResidualDenseBlock) (x : Tensor) : (rdbOut5 m x).n = x.n := rfl

@[simp] lemma rdbOut5_c (m : ResidualDenseBlock) (x : Tensor) :
    (rdbOut5 m x).c = m.channels := rfl

@[simp] lemma rdbOut5_h (m : ResidualDenseBlock) (x : Tensor) : (rdbOut5 m x).h = x.h := rfl

@[simp] lemma rdbOut5_w (m : ResidualDenseBlock) (x : Tensor) : (rdbOut5 m x).w = x.w := rfl

/-- The spec pipeline of section 4.3 reduces to the same five stages with
the residual add taken in the order written in the spec. -/
lemma rdbSpecForward_eq_ok (m : ResidualDenseBlock) (x : Tensor)
    (hc : x.c = m.channels) :
    rdbSpecForward m x = .ok (Tensor.addFn x ((rdbOut5 m x).scale 0.2)) := by
  unfold rdbSpecForward
  rw [Conv2d.forward_eq_ok m.conv_1 x (by simp [ResidualDenseBlock.conv_1, hc])]
  simp only [ok_bind]
  rw [concatChannels_cons_ok _ _ (by simp [ResidualDenseBlock.conv_1])]
  simp only [ok_bind, concatFnList_cons, concatFnList_nil]
  rw [Conv2d.forward_eq_ok _ _ (by simp [ResidualDenseBlock.conv_1, ResidualDenseBlock.conv_2, hc])]
  simp only [ok_bind]
  rw [concatChannels_cons_ok _ _ (by simp [ResidualDenseBlock.conv_1, ResidualDenseBlock.conv_2] <;> omega)]
  simp only [ok_bind, concatFnList_cons, concatFnList_nil]
  rw [Conv2d.forward_eq_ok _ _ (by simp [ResidualDenseBlock.conv_1, ResidualDenseBlock.conv_2, ResidualDenseBlock.conv_3, hc] <;> omega)]
  simp only [ok_bind]
  rw [concatChannels_cons_ok _ _ (by simp [ResidualDenseBlock.conv_1, ResidualDenseBlock.conv_2, ResidualDenseBlock.conv_3] <;> omega)]
  simp only [ok_bind, concatFnList_cons, concatFnList_nil]
  rw [Conv2d.forward_eq_ok _ _ (by simp [ResidualDenseBlock.conv_1, ResidualDenseBlock.conv_2, ResidualDenseBlock.conv_3, ResidualDenseBlock.conv_4, hc] <;> omega)]
  simp only [ok_bind]
  rw [concatChannels_cons_ok _ _ (by simp [ResidualDenseBlock.conv_1, ResidualDenseBlock.conv_2, ResidualDenseBlock.conv_3, ResidualDenseBlock.conv_4] <;> omega)]
  simp only [ok_bind, concatFnList_cons, concatFnList_nil]
  rw [Conv2d.forward_eq_ok _ _ (by simp [ResidualDenseBlock.conv_1, ResidualDenseBlock.conv_2, ResidualDenseBlock.conv_3, ResidualDenseBlock.conv_4, ResidualDenseBlock.conv_5, hc] <;> omega)]
  simp only [ok_bind]
  rw [Tensor.add_eq_ok x _ (by simp [ResidualDenseBlock.conv_1, ResidualDenseBlock.conv_2, ResidualDenseBlock.conv_3, ResidualDenseBlock.conv_4, ResidualDenseBlock.conv_5, hc] <;> omega)]
  rfl

/-- The spec pipeline of section 4.4 reduces to the chained blocks with the
residual add taken in the order written in the spec. -/
lemma rrdbSpecForward_eq_ok (m : ResidualResidualDenseBlock) (x : Tensor)
    (hc : x.c = m.channels) :
    rrdbSpecForward m x =
      .ok (Tensor.addFn x ((rdbFn m.rdb_3 (rdbFn m.rdb_2 (rdbFn m.rdb_1 x))).scale 0.2)) := by
  unfold rrdbSpecForward
  rw [rdb_forward_eq_ok m.rdb_1 x (by simp [hc])]
  simp only [ok_bind]
  rw [rdb_forward_eq_ok m.rdb_2 _ (by simp)]
  simp only [ok_bind]
  rw [rdb_forward_eq_ok m.rdb_3 _ (by simp)]
  simp only [ok_bind]
  rw [Tensor.add_eq_ok x _ (by simp [hc])]

/-- The spec pipeline of section 4.5 reduces to exactly the RFDB total
pipeline value. -/
lemma rfdbSpecForward_eq_ok (m : ResidualFeatureDistillationBlock) (x : Tensor)
    (hc : x.c = m.channels) :
    rfdbSpecForward m x = .ok (rfdbFn m x) := by
  unfold rfdbSpecForward
  rw [Conv2d.forward_eq_ok m.conv_1_distilled x
    (by simp [ResidualFeatureDistillationBlock.conv_1_distilled, hc])]
  simp only [ok_bind]
  rw [Conv2d.forward_eq_ok m.conv_1_remaining x
    (by simp [ResidualFeatureDistillationBlock.conv_1_remaining,
      ResidualFeatureDistillationBlock.remainingChannels, hc])]
  simp only [ok_bind]
  rw [Tensor.add_eq_ok _ x
    (by simp [ResidualFeatureDistillationBlock.conv_1_remaining,
      ResidualFeatureDistillationBlock.remainingChannels, hc] <;> omega)]
  simp only [ok_bind]
  rw [Conv2d.forward_eq_ok m.conv_2_distilled _
    (by simp [ResidualFeatureDistillationBlock.conv_2_distilled,
      ResidualFeatureDistillationBlock.conv_1_remaining,
      ResidualFeatureDistillationBlock.remainingChannels, hc])]
  simp only [ok_bind]
  rw [Conv2d.forward_eq_ok m.conv_2_remaining _
    (by simp [ResidualFeatureDistillationBlock.conv_2_remaining,
      ResidualFeatureDistillationBlock.conv_1_remaining,
      ResidualFeatureDistillationBlock.remainingChannels, hc])]
  simp only [ok_bind]
  rw [Tensor.add_eq_ok _ _
    (by simp [ResidualFeatureDistillationBlock.conv_2_remaining,
      ResidualFeatureDistillationBlock.conv_1_remaining,
      ResidualFeatureDistillationBlock.remainingChannels, hc] <;> omega)]
  simp only [ok_bind]
  rw [Conv2d.forward_eq_ok m.conv_3_distilled _
    (by simp [ResidualFeatureDistillationBlock.conv_3_distilled,
      ResidualFeatureDistillationBlock.conv_2_remaining,
      ResidualFeatureDistillationBlock.conv_1_remaining,
      ResidualFeatureDistillationBlock.remainingChannels, hc])]
  simp only [ok_bind]
  rw [Conv2d.forward_eq_ok m.conv_3_remaining _
    (by simp [ResidualFeatureDistillationBlock.conv_3_remaining,
      ResidualFeatureDistillationBlock.conv_2_remaining,
      ResidualFeatureDistillationBlock.conv_1_remaining,
      ResidualFeatureDistillationBlock.remainingChannels, hc])]
  simp only [ok_bind]
  rw [Tensor.add_eq_ok _ _
    (by simp [ResidualFeatureDistillationBlock.conv_3_remaining,
      ResidualFeatureDistillationBlock.conv_2_remaining,
      ResidualFeatureDistillationBlock.conv_1_remaining,
      ResidualFeatureDistillationBlock.remainingChannels, hc] <;> omega)]
  simp only [ok_bind]
  rw [Conv2d.forward_eq_ok m.conv_4 _
    (by simp [ResidualFeatureDistillationBlock.conv_4,
      ResidualFeatureDistillationBlock.conv_3_remaining,
      ResidualFeatureDistillationBlock.conv_2_remaining,
      ResidualFeatureDistillationBlock.conv_1_remaining,
      ResidualFeatureDistillationBlock.remainingChannels, hc])]
  simp only [ok_bind]
  rw [concatChannels_cons_ok _ _
    (by show ∀ u ∈ [rfdbD2 m x, rfdbD3 m x, rfdbR4 m x],
          u.n = (rfdbD1 m x).n ∧ u.h = (rfdbD1 m x).h ∧ u.w = (rfdbD1 m x).w
        simp)]
  simp only [ok_bind]
  rw [Conv2d.forward_eq_ok m.conv_5 _
    (by show (concatFnList (rfdbD1 m x) [rfdbD2 m x, rfdbD3 m x, rfdbR4 m x]).c
          = m.conv_5.inChannels
        simp [ResidualFeatureDistillationBlock.conv_5,
          ResidualFeatureDistillationBlock.distilledChannels]
        omega)]
  simp only [ok_bind]
  rfl

/-- Elementwise addition of shape-compatible tensors is commutative. -/
lemma Tensor.addFn_comm (a b : Tensor) (hn : a.n = b.n) (hcc : a.c = b.c)
    (hh : a.h = b.h) (hw : a.w = b.w) : a.addFn b = b.addFn a := by
  refine Tensor.ext hn hcc hh hw ?_
  funext bi ci yi xi
  exact add_comm _ _

/-- With all-zero weights and biases the RDB pipeline value is exactly the
input: every convolution output is the zero tensor, so out5 is zero and the
scaled residual add returns the input unchanged. -/
lemma rdbFn_zero (m : ResidualDenseBlock) (x : Tensor)
    (hz : m.w = zeroRDBWeights) (hc : x.c = m.channels) : rdbFn m x = x := by
  refine Tensor.ext rfl ?_ rfl rfl ?_
  · simp [hc]
  · funext bi ci yi xi
    show (rdbOut5 m x).data bi ci yi xi * 0.2 + x.data bi ci yi xi = x.data bi ci yi xi
    simp [rdbOut5, identityLayer, Conv2d.applyFn, ResidualDenseBlock.conv_5,
      hz, zeroRDBWeights, zeroConvWeights]

/-- With all-zero weights in all three inner blocks, the RRDB pipeline
value is the input plus 0.2 times the input: each inner block is the
identity, and the outer scaled residual add still contributes 0.2 * x. -/
lemma rrdbFn_zero (m : ResidualResidualDenseBlock) (x : Tensor)
    (h1 : m.w1 = zeroRDBWeights) (h2 : m.w2 = zeroRDBWeights)
    (h3 : m.w3 = zeroRDBWeights) (hc : x.c = m.channels) :
    rrdbFn m x = Tensor.addFn (x.scale 0.2) x := by
  unfold rrdbFn
  rw [rdbFn_zero m.rdb_1 x h1 (by simp [hc])]
  rw [rdbFn_zero m.rdb_2 x h2 (by simp [hc])]
  rw [rdbFn_zero m.rdb_3 x h3 (by simp [hc])]

lemma storeExtends_rfl (s : Store) : StoreExtends s s :=
  ⟨Nat.le_refl _, fun _ _ => rfl⟩

lemma storeExtends_trans {s0 s1 s2 : Store}
    (h01 : StoreExtends s0 s1) (h12 : StoreExtends s1 s2) : StoreExtends s0 s2 := by
  refine ⟨Nat.le_trans h01.1 h12.1, fun i hi => ?_⟩
  rw [h12.2 i (Nat.lt_of_lt_of_le hi h01.1), h01.2 i hi]

lemma alloc_extends (s : Store) (t : Tensor) : StoreExtends s (s.alloc t).1 := by
  refine ⟨Nat.le_succ _, fun i hi => ?_⟩
  show (if i = s.next then t else s.val i) = s.val i
  rw [if_neg (by omega)]

lemma stageConvAct_extends (conv : Conv2d) (slope : ℚ) (r : Nat) (s : Store) :
    StoreExtends s (stageConvAct conv slope r s).1 := by
  refine ⟨Nat.le_succ _, fun i hi => ?_⟩
  show (if i = s.next then _ else if i = s.next then _ else s.val i) = s.val i
  rw [if_neg (by omega), if_neg (by omega)]

lemma stageConv_extends (conv : Conv2d) (r : Nat) (s : Store) :
    StoreExtends s (stageConv conv r s).1 :=
  alloc_extends s _

lemma stageCat_extends (r : Nat) (os : List Nat) (s : Store) :
    StoreExtends s (stageCat r os s).1 :=
  alloc_extends s _

lemma stageMul_extends (k : ℚ) (r : Nat) (s : Store) :
    StoreExtends s (stageMul k r s).1 :=
  alloc_extends s _

lemma stageAdd_extends (r1 r2 : Nat) (s : Store) :
    StoreExtends s (stageAdd r1 r2 s).1 :=
  alloc_extends s _

lemma stageAddAct_extends (slope : ℚ) (r1 r2 : Nat) (s : Store) :
    StoreExtends s (stageAddAct slope r1 r2 s).1 := by
  refine ⟨Nat.le_succ _, fun i hi => ?_⟩
  show (if i = s.next then _ else if i = s.next then _ else s.val i) = s.val i
  rw [if_neg (by omega), if_neg (by omega)]

lemma stageGate_extends (g : Tensor → Tensor) (r : Nat) (s : Store) :
    StoreExtends s (stageGate g r s).1 :=
  alloc_extends s _

/-- The RDB store replay only allocates fresh buffers and overwrites fresh
buffers in place: the resulting store extends the initial one. -/
lemma rdbForwardStore_extends (m : ResidualDenseBlock) (s0 : Store) (x : Nat) :
    StoreExtends s0 (rdbForwardStore m s0 x).1 := by
  unfold rdbForwardStore
  refine storeExtends_trans ?_ (stageAdd_extends _ _ _)
  refine storeExtends_trans ?_ (stageMul_extends _ _ _)
  refine storeExtends_trans ?_ (stageConv_extends _ _ _)
  refine storeExtends_trans ?_ (stageCat_extends _ _ _)
  refine storeExtends_trans ?_ (stageConvAct_extends _ _ _ _)
  refine storeExtends_trans ?_ (stageCat_extends _ _ _)
  refine storeExtends_trans ?_ (stageConvAct_extends _ _ _ _)
  refine storeExtends_trans ?_ (stageCat_extends _ _ _)
  refine storeExtends_trans ?_ (stageConvAct_extends _ _ _ _)
  refine storeExtends_trans ?_ (stageCat_extends _ _ _)
  exact stageConvAct_extends _ _ _ _

/-- The RRDB store replay extends the initial store. -/
lemma rrdbForwardStore_extends (m : ResidualResidualDenseBlock) (s0 : Store) (x : Nat) :
    StoreExtends s0 (rrdbForwardStore m s0 x).1 := by
  unfold rrdbForwardStore
  refine storeExtends_trans ?_ (stageAdd_extends _ _ _)
  refine storeExtends_trans ?_ (stageMul_extends _ _ _)
  refine storeExtends_trans ?_ (rdbForwardStore_extends _ _ _)
  refine storeExtends_trans ?_ (rdbForwardStore_extends _ _ _)
  exact rdbForwardStore_extends _ _ _

/-- The RFDB store replay extends the initial store. -/
lemma rfdbForwardStore_extends (m : ResidualFeatureDistillationBlock) (s0 : Store) (x : Nat) :
    StoreExtends s0 (rfdbForwardStore m s0 x).1 := by
  unfold rfdbForwardStore
  refine storeExtends_trans ?_ (stageGate_extends _ _ _)
  refine storeExtends_trans ?_ (stageConv_extends _ _ _)
  refine storeExtends_trans ?_ (stageCat_extends _ _ _)
  refine storeExtends_trans ?_ (stageConvAct_extends _ _ _ _)
  refine storeExtends_trans ?_ (stageAddAct_extends _ _ _ _)
  refine storeExtends_trans ?_ (stageConv_extends _ _ _)
  refine storeExtends_trans ?_ (stageConvAct_extends _ _ _ _)
  refine storeExtends_trans ?_ (stageAddAct_extends _ _ _ _)
  refine storeExtends_trans ?_ (stageConv_extends _ _ _)
  refine storeExtends_trans ?_ (stageConvAct_extends _ _ _ _)
  refine storeExtends_trans ?_ (stageAddAct_extends _ _ _ _)
  refine storeExtends_trans ?_ (stageConv_extends _ _ _)
  exact stageConvAct_extends _ _ _ _

/-
  The claims.
-/

/-- Claim C1: for every input tensor x whose channel count matches the
configured channels, ResidualDenseBlock.forward computes exactly the
five-stage dense pipeline of the spec: out1 to out4 are leaky ReLU with
slope 0.2 of a convolution of the concatenation of x with all previous
stage outputs, out5 is the fifth convolution with no activation, and the
returned value is x + 0.2 * out5 with the scale fixed at exactly 0.2. -/
theorem rdb_forward_matches_spec (m : ResidualDenseBlock) (x : Tensor)
    (hc : x.c = m.channels) : m.forward x = rdbSpecForward m x := by
  rw [rdb_forward_eq_ok m x hc, rdbSpecForward_eq_ok m x hc]
  unfold rdbFn
  rw [Tensor.addFn_comm _ _ (by simp) (by simp [hc]) (by simp) (by simp)]

/-- Witness for C1 at a concrete block and input. -/
theorem rdb_forward_matches_spec_witness :
    tFive.c = rdbZero.channels ∧
      rdbZero.forward tFive = rdbSpecForward rdbZero tFive :=
  ⟨rfl, rdb_forward_matches_spec rdbZero tFive rfl⟩

/-- Claim C2: for every input tensor of matching channel count,
ResidualResidualDenseBlock.forward equals x + 0.2 * RDB3(RDB2(RDB1(x))),
the three independently weighted inner blocks chained in sequence and the
outer 0.2 scale applied exactly once around the whole stack. -/
theorem rrdb_forward_matches_spec (m : ResidualResidualDenseBlock) (x : Tensor)
    (hc : x.c = m.channels) : m.forward x = rrdbSpecForward m x := by
  rw [rrdb_forward_eq_ok m x hc, rrdbSpecForward_eq_ok m x hc]
  unfold rrdbFn
  rw [Tensor.addFn_comm _ _ (by simp) (by simp [hc]) (by simp) (by simp)]

/-- Witness for C2 at a concrete block and input. -/
theorem rrdb_forward_matches_spec_witness :
    tFive.c = rrdbZero.channels ∧
      rrdbZero.forward tFive = rrdbSpecForward rrdbZero tFive :=
  ⟨rfl, rrdb_forward_matches_spec rrdbZero tFive rfl⟩

/-- Claim C3: if every convolution weight and bias of an RDB is zero, then
for every input of the configured channel count the forward pass returns
the input exactly: every convolution yields the zero tensor, leaky ReLU of
zero is zero, so out5 is zero and the residual add returns the input. -/
theorem rdb_zero_weights_identity (m : ResidualDenseBlock) (x : Tensor)
    (hz : m.w = zeroRDBWeights) (hc : x.c = m.channels) :
    m.forward x = .ok x := by
  rw [rdb_forward_eq_ok m x hc, rdbFn_zero m x hz hc]

/-- Witness for C3 at a concrete block and input. -/
theorem rdb_zero_weights_identity_witness :
    rdbZero.w = zeroRDBWeights ∧ tFive.c = rdbZero.channels ∧
      rdbZero.forward tFive = .ok tFive :=
  ⟨rfl, rfl, rdb_zero_weights_identity rdbZero tFive rfl rfl⟩

/-- Counterexample for C4: with all-zero weights in all three inner
blocks, the RRDB forward pass on the concrete tensor tFive does not return
the input: the inner chain is the identity, so the outer residual add
yields x + 0.2 * x, which differs from x at entry (0,0,0,0). -/
theorem rrdb_zero_weights_not_identity :
    rrdbZero.forward tFive ≠ Except.ok tFive := by
  intro h
  rw [rrdb_forward_eq_ok rrdbZero tFive rfl,
    rrdbFn_zero rrdbZero tFive rfl rfl rfl rfl] at h
  have h2 : Tensor.addFn (tFive.scale 0.2) tFive = tFive := Except.ok.inj h
  have h3 := congrArg (fun t => t.data 0 0 0 0) h2
  norm_num [Tensor.addFn, Tensor.scale, tFive] at h3

/-- Claim C4 (amended): if every convolution weight and bias of all three
inner blocks is zero, then for every input of the configured channel count
RRDB.forward(x) = x + 0.2 * x, not x: each inner block is the identity, so
the outer scaled residual still contributes 0.2 * x. -/
theorem rrdb_zero_weights_scaled_residual (m : ResidualResidualDenseBlock)
    (x : Tensor) (h1 : m.w1 = zeroRDBWeights) (h2 : m.w2 = zeroRDBWeights)
    (h3 : m.w3 = zeroRDBWeights) (hc : x.c = m.channels) :
    m.forward x = .ok (Tensor.addFn (x.scale 0.2) x) := by
  rw [rrdb_forward_eq_ok m x hc, rrdbFn_zero m x h1 h2 h3 hc]

/-- Witness for the amended C4 at a concrete block and input. -/
theorem rrdb_zero_weights_scaled_residual_witness :
    rrdbZero.w1 = zeroRDBWeights ∧ rrdbZero.w2 = zeroRDBWeights ∧
      rrdbZero.w3 = zeroRDBWeights ∧ tFive.c = rrdbZero.channels ∧
      rrdbZero.forward tFive = .ok (Tensor.addFn (tFive.scale 0.2) tFive) :=
  ⟨rfl, rfl, rfl, rfl,
    rrdb_zero_weights_scaled_residual rrdbZero tFive rfl rfl rfl rfl⟩

/-- Claim C5: for every configuration, every weight set and every input
tensor of matching channel count, ResidualDenseBlock.forward succeeds and
returns a tensor of exactly the same shape (N, C, H, W): the stride-1
same-padding convolutions preserve the spatial size and the fifth
convolution restores the channel count. -/
theorem rdb_forward_preserves_shape (m : ResidualDenseBlock) (x : Tensor)
    (hc : x.c = m.channels) :
    ∃ y, m.forward x = .ok y ∧ y.n = x.n ∧ y.c = x.c ∧ y.h = x.h ∧ y.w = x.w :=
  ⟨rdbFn m x, rdb_forward_eq_ok m x hc, rfl, by simp [hc], rfl, rfl⟩

/-- Witness for C5 at a concrete block and input. -/
theorem rdb_forward_preserves_shape_witness :
    tFive.c = rdbZero.channels ∧
      ∃ y, rdbZero.forward tFive = .ok y ∧ y.n = tFive.n ∧ y.c = tFive.c ∧
        y.h = tFive.h ∧ y.w = tFive.w :=
  ⟨rfl, rdb_forward_preserves_shape rdbZero tFive rfl⟩

/-- Claim C6: for every input tensor of the configured channel width,
ResidualFeatureDistillationBlock.forward computes the three distillation
stages of the spec (distilled branch: 1 by 1 convolution then leaky ReLU
slope 0.05, no residual; remaining branch: 3 by 3 convolution
residual-added to the stage input then leaky ReLU slope 0.05), the fourth
convolution, the 1 by 1 fusion convolution over concat(d1,d2,d3,r4), and
applies the attention gate exactly once to the fused result as the last
step. -/
theorem rfdb_forward_matches_spec (m : ResidualFeatureDistillationBlock)
    (x : Tensor) (hc : x.c = m.channels) :
    m.forward x = rfdbSpecForward m x := by
  rw [rfdb_forward_eq_ok m x hc, rfdbSpecForward_eq_ok m x hc]

/-- Witness for C6 at a concrete block and input. -/
theorem rfdb_forward_matches_spec_witness :
    tSixtyFour.c = rfdbSixtyFour.channels ∧
      rfdbSixtyFour.forward tSixtyFour = rfdbSpecForward rfdbSixtyFour tSixtyFour :=
  ⟨rfl, rfdb_forward_matches_spec rfdbSixtyFour tSixtyFour rfl⟩

/-- Claim C7: for an RFDB constructed with channels = 64 the derived
distilled channel count is 32, and the concatenation feeding the fifth
convolution has exactly 4 * 32 = 128 channels for every input, matching
the declared input width of that convolution. -/
theorem rfdb_channel_invariant (m : ResidualFeatureDistillationBlock)
    (h64 : m.channels = 64) :
    m.distilledChannels = 32 ∧ m.conv_5.inChannels = 128 ∧
      ∀ x : Tensor, (rfdbCat m x).c = 128 := by
  refine ⟨?_, ?_, fun x => ?_⟩ <;>
    simp [ResidualFeatureDistillationBlock.distilledChannels,
      ResidualFeatureDistillationBlock.conv_5, rfdbCat, h64]

/-- Witness for C7 at a concrete block. -/
theorem rfdb_channel_invariant_witness :
    rfdbSixtyFour.channels = 64 ∧
      (rfdbSixtyFour.distilledChannels = 32 ∧
        rfdbSixtyFour.conv_5.inChannels = 128 ∧
        ∀ x : Tensor, (rfdbCat rfdbSixtyFour x).c = 128) :=
  ⟨rfl, rfdb_channel_invariant rfdbSixtyFour rfl⟩

/-- Claim C8: for every pair of tensors whose N, H or W dimensions differ,
both the elementwise add operation and the channel concatenation fail with
ShapeError and produce no result tensor, never broadcasting or
truncating. -/
theorem add_concat_reject_shape_mismatch (a b : Tensor)
    (h : a.n ≠ b.n ∨ a.h ≠ b.h ∨ a.w ≠ b.w) :
    Tensor.add a b = .error ShapeError.shapeMismatch ∧
      concatChannels [a, b] = .error ShapeError.shapeMismatch := by
  constructor
  · have hcon : ¬(a.n = b.n ∧ a.c = b.c ∧ a.h = b.h ∧ a.w = b.w) := by
      intro hcc
      rcases h with h | h | h
      exacts [h hcc.1, h hcc.2.2.1, h hcc.2.2.2]
    unfold Tensor.add
    rw [if_neg hcon]
  · have hcon : ¬∀ u ∈ [b], u.n = a.n ∧ u.h = a.h ∧ u.w = a.w := by
      simp only [List.mem_singleton, forall_eq]
      intro hcc
      rcases h with h | h | h
      exacts [h hcc.1.symm, h hcc.2.1.symm, h hcc.2.2.symm]
    show (if ∀ u ∈ [b], u.n = a.n ∧ u.h = a.h ∧ u.w = a.w then
        Except.ok (concatFnList a [b])
      else Except.error ShapeError.shapeMismatch) = Except.error ShapeError.shapeMismatch
    rw [if_neg hcon]

/-- Witness for C8 at a concrete mismatched pair. -/
theorem add_concat_reject_shape_mismatch_witness :
    (tZero.n ≠ tZeroBatchTwo.n ∨ tZero.h ≠ tZeroBatchTwo.h ∨ tZero.w ≠ tZeroBatchTwo.w) ∧
      Tensor.add tZero tZeroBatchTwo = .error ShapeError.shapeMismatch ∧
      concatChannels [tZero, tZeroBatchTwo] = .error ShapeError.shapeMismatch :=
  ⟨Or.inl (by decide),
    add_concat_reject_shape_mismatch tZero tZeroBatchTwo (Or.inl (by decide))⟩

/-- Claim C9: for tensors with matching N, H, W the concatenation lays out
the channels of the first operand first and the channels of the second
operand after them, in order; consequently concatenation is not
commutative, witnessed by the concrete unequal tensors tZero and tOne
whose two concatenations differ at entry (0,0,0,0). -/
theorem concat_channel_order (a b : Tensor) (h1 : a.n = b.n) (h2 : a.h = b.h)
    (h3 : a.w = b.w) :
    concatChannels [a, b] = .ok (a.concat2Fn b) ∧
      (a.concat2Fn b).c = a.c + b.c ∧
      (∀ bi ci yi xi, ci < a.c →
        (a.concat2Fn b).data bi ci yi xi = a.data bi ci yi xi) ∧
      (∀ bi ci yi xi, a.c ≤ ci →
        (a.concat2Fn b).data bi ci yi xi = b.data bi (ci - a.c) yi xi) ∧
      tZero ≠ tOne ∧
      (tZero.concat2Fn tOne).data 0 0 0 0 ≠ (tOne.concat2Fn tZero).data 0 0 0 0 := by
  refine ⟨?_, rfl, ?_, ?_, ?_, ?_⟩
  · rw [concatChannels_cons_ok a [b] (by simp [h1, h2, h3])]
    rfl
  · intro bi ci yi xi hci
    show (if ci < a.c then a.data bi ci yi xi else b.data bi (ci - a.c) yi xi)
      = a.data bi ci yi xi
    rw [if_pos hci]
  · intro bi ci yi xi hci
    show (if ci < a.c then a.data bi ci yi xi else b.data bi (ci - a.c) yi xi)
      = b.data bi (ci - a.c) yi xi
    rw [if_neg (by omega)]
  · intro hEq
    have h4 := congrArg (fun t => t.data 0 0 0 0) hEq
    norm_num [tZero, tOne] at h4
  · decide

/-- Witness for C9 at a concrete pair. -/
theorem concat_channel_order_witness :
    tZero.n = tOne.n ∧ tZero.h = tOne.h ∧ tZero.w = tOne.w ∧
      concatChannels [tZero, tOne] = .ok (tZero.concat2Fn tOne) :=
  ⟨rfl, rfl, rfl, (concat_channel_order tZero tOne rfl rfl rfl).1⟩

/-- Claim C10: for each of the three blocks, replaying the forward pass
over the buffer store leaves the contents of the input buffer x unchanged,
even though the leaky ReLU activations run in place: every in-place
activation hits a freshly allocated convolution output or a fresh sum
produced by torch.add, never the buffer of the caller, and x is captured
as the residual identity before any in-place operation runs. -/
theorem blocks_preserve_input_buffer (m1 : ResidualDenseBlock)
    (m2 : ResidualResidualDenseBlock) (m3 : ResidualFeatureDistillationBlock)
    (s : Store) (x : Nat) (hx : x < s.next) :
    (rdbForwardStore m1 s x).1.read x = s.read x ∧
      (rrdbForwardStore m2 s x).1.read x = s.read x ∧
      (rfdbForwardStore m3 s x).1.read x = s.read x :=
  ⟨(rdbForwardStore_extends m1 s x).2 x hx,
    (rrdbForwardStore_extends m2 s x).2 x hx,
    (rfdbForwardStore_extends m3 s x).2 x hx⟩

/-- Witness for C10 at concrete blocks and a concrete store. -/
theorem blocks_preserve_input_buffer_witness :
    0 < storeOne.next ∧
      ((rdbForwardStore rdbZero storeOne 0).1.read 0 = storeOne.read 0 ∧
        (rrdbForwardStore rrdbZero storeOne 0).1.read 0 = storeOne.read 0 ∧
        (rfdbForwardStore rfdbSixtyFour storeOne 0).1.read 0 = storeOne.read 0) :=
  ⟨Nat.one_pos,
    blocks_preserve_input_buffer rdbZero rrdbZero rfdbSixtyFour storeOne 0 Nat.one_pos⟩

end ESRGan
